import Mathlib

set_option autoImplicit false

/-!
# Verification of the dynamic_dashboard query pipeline and spec engine

Shallow embedding of the Python sources under `src/` (agents/query_utils.py,
agents/database_agent.py, agents/nlu_agent.py, agents/response_generator.py,
agents/orchestrator.py, core/specs.py, core/transform.py).

Python dictionaries are modelled as insertion-ordered association lists
(`Assoc`), `None`-able values as `Option`, and raised exceptions as
`Except`/`Option` results.
-/

namespace DynDash

/-- A Python `dict` with string keys, modelled as an insertion-ordered
association list.  Real Python dicts have unique keys; theorems that need
uniqueness carry a `Nodup` hypothesis on the key list. -/
abbrev Assoc (α : Type) := List (String × α)

namespace Assoc

/-- Python `d.get(k)` / `k in d`: first binding of `k` wins. -/
def get? {α : Type} : Assoc α → String → Option α
  | [], _ => none
  | (k', v) :: rest, k => if k' = k then some v else get? rest k

/-- Python `d.get(k, default)`. -/
def getD {α : Type} (l : Assoc α) (k : String) (dflt : α) : α :=
  (get? l k).getD dflt

/-- Python `k in d`. -/
def hasKey {α : Type} (l : Assoc α) (k : String) : Bool :=
  (get? l k).isSome

/-- Python `d[k] = v`: replace the first binding in place if the key exists,
otherwise append it at the end (Python dicts keep the original key position
on overwrite). -/
def setItem {α : Type} : Assoc α → String → α → Assoc α
  | [], k, v => [(k, v)]
  | (k', w) :: rest, k, v =>
      if k' = k then (k, v) :: rest else (k', w) :: setItem rest k v

/-- Python `{**a, **b}`: start from `a`, write each binding of `b`. -/
def merge {α : Type} (a b : Assoc α) : Assoc α :=
  b.foldl (fun acc p => setItem acc p.1 p.2) a

@[simp] theorem get?_nil {α : Type} (k : String) : get? ([] : Assoc α) k = none := rfl

@[simp] theorem get?_cons {α : Type} (k' k : String) (v : α) (rest : Assoc α) :
    get? ((k', v) :: rest) k = if k' = k then some v else get? rest k := rfl

theorem get?_setItem {α : Type} (l : Assoc α) (k : String) (v : α) (k' : String) :
    get? (setItem l k v) k' = if k = k' then some v else get? l k' := by
  induction l with
  | nil => by_cases h : k = k' <;> simp [setItem, h]
  | cons hd tl ih =>
    obtain ⟨k₀, w⟩ := hd
    by_cases h0 : k₀ = k
    · subst h0
      by_cases h : k₀ = k' <;> simp [setItem, h]
    · simp only [setItem, if_neg h0]
      by_cases h : k₀ = k'
      · subst h
        have h2 : ¬ k = k₀ := fun hc => h0 hc.symm
        simp [h2]
      · simp [h, ih]

theorem get?_eq_none_of_not_mem {α : Type} (l : Assoc α) (k : String)
    (h : k ∉ l.map Prod.fst) : get? l k = none := by
  induction l with
  | nil => rfl
  | cons hd tl ih =>
    obtain ⟨k₀, v₀⟩ := hd
    simp only [List.map_cons, List.mem_cons] at h
    push_neg at h
    simp only [get?_cons]
    rw [if_neg (fun hc => h.1 hc.symm)]
    exact ih h.2

/-- Lookup in a Python dict-literal merge `{**a, **b}`: a key bound in `b`
takes its value from `b`, otherwise from `a` (for duplicate-free `b`,
i.e. an actual dict). -/
theorem get?_merge {α : Type} (a b : Assoc α) (hk : (b.map Prod.fst).Nodup)
    (k : String) :
    get? (merge a b) k =
      match get? b k with
      | some v => some v
      | none => get? a k := by
  induction b generalizing a with
  | nil => simp [merge]
  | cons hd tl ih =>
    obtain ⟨k₀, v₀⟩ := hd
    simp only [List.map_cons, List.nodup_cons] at hk
    have hstep : merge a ((k₀, v₀) :: tl) = merge (setItem a k₀ v₀) tl := rfl
    rw [hstep, ih (setItem a k₀ v₀) hk.2]
    by_cases h : k₀ = k
    · subst h
      have : get? tl k₀ = none :=
        get?_eq_none_of_not_mem tl k₀ hk.1
      simp [this, get?_setItem]
    · simp only [get?_cons, if_neg h]
      cases htl : get? tl k with
      | some v => simp
      | none => simp [get?_setItem, h]

end Assoc

/-! ## Query Builder (src/agents/query_utils.py) -/

/-- The fixed entity-to-column map in `build_where_clause`
(`entity_mappings`, query_utils.py lines 29-34). -/
def entity_mappings : List (String × String) :=
  [("category", "category"), ("department", "department"),
   ("status", "status"), ("condition", "condition")]

/-- One iteration of the `for entity_key, column_name in entity_mappings.items()`
loop in `build_where_clause`: append `"col = ?"` and the entity value when
the entity key is present. -/
def whereStep {α : Type} (entities : Assoc α)
    (acc : List String × List α) (p : String × String) : List String × List α :=
  match Assoc.get? entities p.1 with
  | some v => (acc.1 ++ [p.2 ++ " = ?"], acc.2 ++ [v])
  | none => acc

/-- Python `" AND ".join(conditions)`. -/
def joinAnd : List String → String
  | [] => ""
  | [c] => c
  | c :: rest => c ++ " AND " ++ joinAnd rest

/-- `build_where_clause(entities, filter_criteria)` (query_utils.py lines 11-54).
`filter_criteria` has Python default `None`; the `if filter_criteria:` guard is
truthiness, so `None` and the empty dict both skip the price block. -/
def build_where_clause {α : Type} (entities : Assoc α)
    (filter_criteria : Option (Assoc α)) : String × List α :=
  let acc0 := entity_mappings.foldl (whereStep entities) ([], [])
  let acc1 :=
    match filter_criteria with
    | some fc =>
        if fc.isEmpty then acc0
        else
          let a :=
            match Assoc.get? fc "price_min" with
            | some v => (acc0.1 ++ ["current_value >= ?"], acc0.2 ++ [v])
            | none => acc0
          match Assoc.get? fc "price_max" with
          | some v => (a.1 ++ ["current_value <= ?"], a.2 ++ [v])
          | none => a
    | none => acc0
  let where_clause :=
    if acc1.1 = [] then "" else "WHERE " ++ joinAnd acc1.1
  (where_clause, acc1.2)

/-- Python `str.lower()` (ASCII case folding, which is all the code relies on). -/
def toLowerStr (s : String) : String := String.mk (s.data.map Char.toLower)

/-- Helper for substring search: is the first list an initial segment of the
second? -/
def listIsPre {α : Type} [DecidableEq α] : List α → List α → Bool
  | [], _ => true
  | _ :: _, [] => false
  | a :: as, b :: bs => if a = b then listIsPre as bs else false

/-- Helper for substring search: does `pat` occur contiguously in `s`? -/
def listHasSub {α : Type} [DecidableEq α] (s pat : List α) : Bool :=
  match s with
  | [] => listIsPre pat []
  | a :: rest => listIsPre pat (a :: rest) || listHasSub rest pat

/-- Python `pat in s` on strings (substring containment). -/
def strContains (s pat : String) : Bool := listHasSub s.data pat.data

/-- `get_aggregation_query(query_text, agg_type, where_clause)`
(query_utils.py lines 57-88). -/
def get_aggregation_query (query_text agg_type where_clause : String) :
    String × String :=
  let query_lower := toLowerStr query_text
  if strContains query_lower "value" then
    ("SELECT SUM(current_value) as total FROM equipment " ++ where_clause, "total")
  else if strContains query_lower "count" ∨ agg_type = "count" then
    ("SELECT COUNT(*) as count FROM equipment " ++ where_clause, "count")
  else if strContains query_lower "price" then
    ("SELECT AVG(purchase_price) as avg_price FROM equipment " ++ where_clause,
     "avg_price")
  else
    ("SELECT COUNT(*) as count FROM equipment " ++ where_clause, "count")

/-- `FIELD_MAPPING` (query_utils.py lines 91-97). -/
def FIELD_MAPPING : Assoc String :=
  [("department", "department"), ("category", "category"), ("status", "status"),
   ("location", "location"), ("condition", "condition")]

/-- The group-by column selection in `DatabaseAgent._handle_group_by_query`
(database_agent.py line 151): `FIELD_MAPPING.get(group_field, "department")`.
The resulting identifier is spliced into the SELECT/GROUP BY statement text. -/
def group_by_column (group_by_field : String) : String :=
  Assoc.getD FIELD_MAPPING group_by_field "department"

/-- Number of `?` placeholders in a piece of statement text. -/
def countPlaceholders (s : String) : Nat := s.data.count '?'

/-! ### Characterisation of `build_where_clause` -/

/-- The conditions contributed by the entity loop of `build_where_clause`. -/
def entityConds {α : Type} (entities : Assoc α) : List String :=
  (entity_mappings.filter (fun q => (Assoc.get? entities q.1).isSome)).map
    (fun q => q.2 ++ " = ?")

/-- The parameters contributed by the entity loop of `build_where_clause`. -/
def entityParams {α : Type} (entities : Assoc α) : List α :=
  entity_mappings.filterMap (fun q => Assoc.get? entities q.1)

/-- The (condition, parameter) pairs contributed by the price block of
`build_where_clause`. -/
def priceItems {α : Type} (fc : Option (Assoc α)) : List (String × α) :=
  match fc with
  | none => []
  | some m =>
      if m.isEmpty then []
      else
        (match Assoc.get? m "price_min" with
         | some v => [("current_value >= ?", v)]
         | none => []) ++
        (match Assoc.get? m "price_max" with
         | some v => [("current_value <= ?", v)]
         | none => [])

theorem whereFold_spec {α : Type} (entities : Assoc α) (ms : List (String × String))
    (c : List String) (p : List α) :
    ms.foldl (whereStep entities) (c, p) =
      (c ++ (ms.filter (fun q => (Assoc.get? entities q.1).isSome)).map
              (fun q => q.2 ++ " = ?"),
       p ++ ms.filterMap (fun q => Assoc.get? entities q.1)) := by
  induction ms generalizing c p with
  | nil => simp
  | cons hd tl ih =>
    cases h : Assoc.get? entities hd.1 with
    | none => simp [whereStep, h, ih]
    | some v => simp [whereStep, h, ih]

/-- `build_where_clause` in closed form: the conditions are the entity
conditions followed by the price conditions, the parameters are the matching
values in the same order. -/
theorem build_where_clause_spec {α : Type} (entities : Assoc α)
    (fc : Option (Assoc α)) :
    build_where_clause entities fc =
      (if entityConds entities ++ (priceItems fc).map Prod.fst = [] then ""
       else "WHERE " ++ joinAnd (entityConds entities ++ (priceItems fc).map Prod.fst),
       entityParams entities ++ (priceItems fc).map Prod.snd) := by
  have hfold : entity_mappings.foldl (whereStep entities) ([], []) =
      (entityConds entities, entityParams entities) := by
    rw [whereFold_spec]
    simp [entityConds, entityParams]
  unfold build_where_clause
  cases fc with
  | none => simp [hfold, priceItems]
  | some m =>
    by_cases hm : m.isEmpty
    · simp [hfold, priceItems, hm]
    · simp only [priceItems, hm, Bool.false_eq_true, if_false]
      cases hmin : Assoc.get? m "price_min" <;>
        cases hmax : Assoc.get? m "price_max" <;>
        simp [hfold, hmin, hmax]

theorem countPlaceholders_append (a b : String) :
    countPlaceholders (a ++ b) = countPlaceholders a + countPlaceholders b := by
  simp [countPlaceholders, String.data_append, List.count_append]

theorem countPlaceholders_joinAnd (l : List String)
    (h : ∀ c ∈ l, countPlaceholders c = 1) :
    countPlaceholders (joinAnd l) = l.length := by
  induction l with
  | nil => rfl
  | cons hd tl ih =>
    cases tl with
    | nil => simpa [joinAnd] using h hd (by simp)
    | cons hd2 tl2 =>
      have hstep : joinAnd (hd :: hd2 :: tl2) = hd ++ " AND " ++ joinAnd (hd2 :: tl2) :=
        rfl
      rw [hstep, countPlaceholders_append, countPlaceholders_append]
      have h1 := h hd (by simp)
      have hAND : countPlaceholders " AND " = 0 := rfl
      rw [h1, hAND, ih (fun c hc => h c (by simp [hc]))]
      simp [Nat.add_comm]

theorem length_filterMap_eq_length_filter {γ β : Type} (l : List γ) (f : γ → Option β) :
    (l.filterMap f).length = (l.filter (fun q => (f q).isSome)).length := by
  induction l with
  | nil => rfl
  | cons hd tl ih => cases h : f hd <;> simp [h, ih]

theorem count_entityConds {α : Type} (entities : Assoc α) :
    ∀ c ∈ entityConds entities, countPlaceholders c = 1 := by
  intro c hc
  unfold entityConds at hc
  simp only [List.mem_map] at hc
  obtain ⟨q, hq, rfl⟩ := hc
  have hq' : q ∈ entity_mappings := List.mem_of_mem_filter hq
  fin_cases hq' <;> rfl

theorem count_priceConds {α : Type} (fc : Option (Assoc α)) :
    ∀ c ∈ (priceItems fc).map Prod.fst, countPlaceholders c = 1 := by
  intro c hc
  unfold priceItems at hc
  cases fc with
  | none => simp at hc
  | some m =>
    by_cases hm : m.isEmpty
    · simp [hm] at hc
    · simp only [hm, Bool.false_eq_true, if_false, List.map_append,
        List.mem_append] at hc
      rcases hc with hc | hc <;>
        · rcases hget : Assoc.get? m "price_min" with _ | v <;>
            rcases hget' : Assoc.get? m "price_max" with _ | v' <;>
            simp [hget, hget'] at hc <;> subst hc <;> rfl

/-- C2 — For every entities map and filter-criteria map, the number of `?`
placeholders in the clause returned by `build_where_clause` equals the length
of the returned parameter list; with no recognized entity key and no price
bound, the result is the empty clause and the empty parameter list. -/
theorem build_where_clause_param_count {α : Type} (entities : Assoc α)
    (fc : Option (Assoc α)) :
    countPlaceholders (build_where_clause entities fc).1
        = (build_where_clause entities fc).2.length
    ∧ ((∀ q ∈ entity_mappings, Assoc.get? entities q.1 = none) →
       (∀ m, fc = some m →
          Assoc.get? m "price_min" = none ∧ Assoc.get? m "price_max" = none) →
       build_where_clause entities fc = ("", [])) := by
  have hlen : (entityConds entities).length = (entityParams entities).length := by
    unfold entityConds entityParams
    rw [List.length_map, length_filterMap_eq_length_filter]
  constructor
  · rw [build_where_clause_spec]
    by_cases h : entityConds entities ++ (priceItems fc).map Prod.fst = []
    · rw [List.append_eq_nil] at h
      have h2 : entityParams entities = [] := by
        have := hlen
        rw [h.1] at this
        exact List.eq_nil_of_length_eq_zero this.symm
      have h3 : (priceItems fc).map Prod.snd = [] := by
        have : priceItems fc = [] := List.map_eq_nil_iff.mp h.2
        rw [this]; rfl
      simp [h.1, h.2, h2, h3, countPlaceholders]
    · simp only [h, if_false]
      rw [countPlaceholders_append]
      have hone : ∀ c ∈ entityConds entities ++ (priceItems fc).map Prod.fst,
          countPlaceholders c = 1 := by
        intro c hc
        rcases List.mem_append.mp hc with hc | hc
        · exact count_entityConds entities c hc
        · exact count_priceConds fc c hc
      rw [countPlaceholders_joinAnd _ hone]
      have hW : countPlaceholders "WHERE " = 0 := rfl
      simp [hW, hlen]
  · intro hent hprice
    rw [build_where_clause_spec]
    have h1 : entityConds entities = [] := by
      unfold entityConds
      rw [List.filter_eq_nil_iff.mpr, List.map_nil]
      intro q hq
      rw [hent q hq]
      simp
    have h2 : entityParams entities = [] := by
      unfold entityParams
      rw [List.filterMap_eq_nil_iff.mpr]
      intro q hq
      rw [hent q hq]
    have h3 : priceItems fc = [] := by
      unfold priceItems
      cases fc with
      | none => rfl
      | some m =>
        rcases hprice m rfl with ⟨hmin, hmax⟩
        by_cases hm : m.isEmpty <;> simp [hm, hmin, hmax]
    simp [h1, h2, h3]

/-- A closed instance of C2's second clause: unrecognized entity keys and a
filter map without price bounds yield the empty clause and no parameters. -/
theorem build_where_clause_param_count_witness :
    build_where_clause [("equipment_name", "Laptop")]
        (some [("foo", "bar")]) = ("", [])
    ∧ countPlaceholders (build_where_clause [("equipment_name", "Laptop")]
        (some [("foo", "bar")])).1
      = (build_where_clause [("equipment_name", "Laptop")]
        (some [("foo", "bar")])).2.length := by
  refine ⟨(build_where_clause_param_count _ _).2 ?_ ?_,
    (build_where_clause_param_count _ _).1⟩
  · decide
  · intro m hm
    cases hm
    exact ⟨rfl, rfl⟩

/-- Truthiness-aware key membership for the optional `filter_criteria`
argument (`None` has no keys). -/
def optHasKey {α : Type} (fc : Option (Assoc α)) (k : String) : Bool :=
  match fc with
  | none => false
  | some m => Assoc.hasKey m k

theorem eq_nil_of_no_keys {α : Type} (m : Assoc α)
    (h : ∀ k, Assoc.hasKey m k = false) : m = [] := by
  cases m with
  | nil => rfl
  | cons hd tl =>
    obtain ⟨k₀, v₀⟩ := hd
    have := h k₀
    simp [Assoc.hasKey, Assoc.get?] at this

/-- The clause side of the price block depends only on key membership. -/
theorem priceItems_fst_eq {α : Type} (fc : Option (Assoc α)) :
    (priceItems fc).map Prod.fst =
      match fc with
      | none => []
      | some m =>
          if m.isEmpty then []
          else
            (if Assoc.hasKey m "price_min" then ["current_value >= ?"] else [])
              ++ (if Assoc.hasKey m "price_max" then ["current_value <= ?"] else []) := by
  unfold priceItems Assoc.hasKey
  cases fc with
  | none => rfl
  | some m =>
    by_cases hm : m.isEmpty <;>
      cases hmin : Assoc.get? m "price_min" <;>
      cases hmax : Assoc.get? m "price_max" <;>
      simp [hm, hmin, hmax]

theorem get?_mem_map_snd {α : Type} (l : Assoc α) (k : String) (v : α)
    (h : Assoc.get? l k = some v) : v ∈ l.map Prod.snd := by
  induction l with
  | nil => simp [Assoc.get?] at h
  | cons hd tl ih =>
    obtain ⟨k₀, v₀⟩ := hd
    simp only [Assoc.get?_cons] at h
    by_cases hk : k₀ = k
    · rw [if_pos hk] at h
      simp only [Option.some.injEq] at h
      simp [h]
    · rw [if_neg hk] at h
      simp [ih h]

/-- C3 — No user-controlled value is interpolated into statement text:
(1) the clause returned by `build_where_clause` is a function of the key sets
of the two maps alone (values flow only into the parameter list), even when
the two runs use different value types; (2) the column identifier spliced
into the group-by statement always comes from the fixed allow-list; (3) any
`group_by_field` that is not a `FIELD_MAPPING` key falls back to the column
`department`. -/
theorem build_where_clause_no_value_interpolation :
    (∀ {α β : Type} (e₁ : Assoc α) (e₂ : Assoc β) (f₁ : Option (Assoc α))
        (f₂ : Option (Assoc β)),
      (∀ k, (Assoc.get? e₁ k).isSome = (Assoc.get? e₂ k).isSome) →
      (∀ k, optHasKey f₁ k = optHasKey f₂ k) →
      (build_where_clause e₁ f₁).1 = (build_where_clause e₂ f₂).1)
    ∧ (∀ g, group_by_column g ∈
        ["department", "category", "status", "location", "condition"])
    ∧ (∀ g, g ∉ FIELD_MAPPING.map Prod.fst → group_by_column g = "department") := by
  refine ⟨?_, ?_, ?_⟩
  · intro α β e₁ e₂ f₁ f₂ he hf
    have hent : entityConds e₁ = entityConds e₂ := by
      unfold entityConds
      congr 1
      apply List.filter_congr
      intro q _
      rw [he q.1]
    have hprice : (priceItems f₁).map Prod.fst = (priceItems f₂).map Prod.fst := by
      rw [priceItems_fst_eq, priceItems_fst_eq]
      cases f₁ with
      | none =>
        cases f₂ with
        | none => rfl
        | some m₂ =>
          have hm : m₂ = [] := eq_nil_of_no_keys m₂ (fun k => by
            have := hf k
            simp only [optHasKey] at this
            exact this.symm)
          subst hm
          rfl
      | some m₁ =>
        cases f₂ with
        | none =>
          have hm : m₁ = [] := eq_nil_of_no_keys m₁ (fun k => by
            have := hf k
            simp only [optHasKey] at this
            exact this)
          subst hm
          rfl
        | some m₂ =>
          have hkeys : ∀ k, Assoc.hasKey m₁ k = Assoc.hasKey m₂ k := fun k => by
            have := hf k
            simpa [optHasKey] using this
          by_cases h1 : m₁.isEmpty
          · have hm₁ : m₁ = [] := List.isEmpty_iff.mp h1
            subst hm₁
            have hm₂ : m₂ = [] := eq_nil_of_no_keys m₂ (fun k => by
              have := hkeys k
              simpa [Assoc.hasKey, Assoc.get?] using this.symm)
            subst hm₂
            rfl
          · have h2 : ¬ m₂.isEmpty := by
              intro hc
              have hm₂ : m₂ = [] := List.isEmpty_iff.mp hc
              subst hm₂
              have hm₁ : m₁ = [] := eq_nil_of_no_keys m₁ (fun k => by
                have := hkeys k
                simpa [Assoc.hasKey, Assoc.get?] using this)
              subst hm₁
              simp at h1
            simp only [h1, h2, Bool.false_eq_true, if_false,
              hkeys "price_min", hkeys "price_max"]
    rw [build_where_clause_spec, build_where_clause_spec, hent, hprice]
  · intro g
    unfold group_by_column Assoc.getD
    cases h : Assoc.get? FIELD_MAPPING g with
    | none => simp
    | some v =>
      have hv : v ∈ FIELD_MAPPING.map Prod.snd := get?_mem_map_snd _ _ _ h
      simpa [FIELD_MAPPING] using hv
  · intro g hg
    unfold group_by_column Assoc.getD
    rw [Assoc.get?_eq_none_of_not_mem FIELD_MAPPING g hg]
    rfl

/-- A closed instance of C3: two runs whose maps share key sets but differ in
every value produce the same clause, and a group-by field outside the map
falls back to `department`. -/
theorem build_where_clause_no_value_interpolation_witness :
    (build_where_clause [("category", "Laptop")]
        (some [("price_min", "10")]) : String × List String).1
      = (build_where_clause [("category", 7)]
        (some [("price_min", 99)]) : String × List Nat).1
    ∧ group_by_column "asset_tag; DROP TABLE equipment"
        ∈ ["department", "category", "status", "location", "condition"]
    ∧ group_by_column "asset_tag; DROP TABLE equipment" = "department" := by
  refine ⟨?_, ?_, ?_⟩
  · apply build_where_clause_no_value_interpolation.1
    · intro k
      by_cases h : ("category" : String) = k <;> simp [Assoc.get?, h]
    · intro k
      by_cases h : ("price_min" : String) = k <;>
        simp [optHasKey, Assoc.hasKey, Assoc.get?, h]
  · exact build_where_clause_no_value_interpolation.2.1 _
  · exact build_where_clause_no_value_interpolation.2.2
      "asset_tag; DROP TABLE equipment" (by decide)

/-- C4 — `get_aggregation_query` is total and deterministic with the stated
keyword precedence ("value" beats "count"/hint beats "price" beats the count
default), and the two concrete examples from the spec select fields `total`
and `count`. -/
theorem get_aggregation_query_cases :
    (∀ q hint clause : String,
      (strContains (toLowerStr q) "value" →
        get_aggregation_query q hint clause =
          ("SELECT SUM(current_value) as total FROM equipment " ++ clause, "total"))
      ∧ (¬ strContains (toLowerStr q) "value" →
          (strContains (toLowerStr q) "count" ∨ hint = "count") →
          get_aggregation_query q hint clause =
            ("SELECT COUNT(*) as count FROM equipment " ++ clause, "count"))
      ∧ (¬ strContains (toLowerStr q) "value" →
          ¬ (strContains (toLowerStr q) "count" ∨ hint = "count") →
          strContains (toLowerStr q) "price" →
          get_aggregation_query q hint clause =
            ("SELECT AVG(purchase_price) as avg_price FROM equipment " ++ clause,
             "avg_price"))
      ∧ (¬ strContains (toLowerStr q) "value" →
          ¬ (strContains (toLowerStr q) "count" ∨ hint = "count") →
          ¬ strContains (toLowerStr q) "price" →
          get_aggregation_query q hint clause =
            ("SELECT COUNT(*) as count FROM equipment " ++ clause, "count")))
    ∧ (get_aggregation_query "total equipment value" "sum" "").2 = "total"
    ∧ (get_aggregation_query "how many laptops" "count" "").2 = "count" := by
  refine ⟨fun q hint clause => ⟨?_, ?_, ?_, ?_⟩, ?_, ?_⟩
  · intro h
    simp [get_aggregation_query, h]
  · intro h1 h2
    simp [get_aggregation_query, h1, h2]
  · intro h1 h2 h3
    simp [get_aggregation_query, h1, h2, h3]
  · intro h1 h2 h3
    simp [get_aggregation_query, h1, h2, h3]
  · rfl
  · rfl

/-- A closed instance of C4's conditional clauses: "average price of tools"
matches neither "value" nor "count" (with a non-count hint) but matches
"price", so the average-price statement is selected. -/
theorem get_aggregation_query_cases_witness :
    get_aggregation_query "average PRICE of tools" "avg" "" =
      ("SELECT AVG(purchase_price) as avg_price FROM equipment ", "avg_price") := by
  have h := ((get_aggregation_query_cases.1 "average PRICE of tools" "avg" "").2.2.1)
  have := h (by decide)
    (by
      rintro (hc | hc)
      · exact absurd hc (by decide)
      · exact absurd hc (by decide))
    (by decide)
  simpa using this

/-! ## Dashboard and widget specs (src/core/specs.py) -/

/-- `WidgetType` (specs.py lines 13-21). -/
inductive WidgetType where
  | scorecard
  | time_series
  | bar_chart
  | pie_chart
  | table
  | filter
  | text
  deriving DecidableEq

/-- `AggregationType` (specs.py lines 24-31). -/
inductive AggregationType where
  | sum
  | avg
  | count
  | min
  | max
  | distinct_count
  deriving DecidableEq

/-- A dynamically typed Python value, as stored in the open `dict` fields of
the specs (layout, config, filters, widget data, ...). -/
inductive PyVal where
  | vnone
  | vbool (b : Bool)
  | vint (n : Int)
  | vstr (s : String)
  | vlist (l : List PyVal)
  | vdict (m : List (String × PyVal))

/-- Python `isinstance(v, str)`. -/
def isStrV : PyVal → Bool
  | .vstr _ => true
  | _ => false

/-- Python `v is None`. -/
def isNoneV : PyVal → Bool
  | .vnone => true
  | _ => false

/-- `WidgetSpec` (specs.py lines 34-61); dataclass defaults preserved. -/
structure WidgetSpec where
  widget_id : String
  widget_type : WidgetType
  title : String
  data : PyVal
  metrics : List String := []
  dimensions : List String := []
  filters : Assoc PyVal := []
  aggregation : Option AggregationType := none
  config : Assoc PyVal := []

/-- `DashboardSpec` (specs.py lines 64-85). -/
structure DashboardSpec where
  dashboard_id : String
  title : String
  description : String := ""
  widgets : List WidgetSpec := []
  layout : Assoc PyVal := []
  global_filters : Assoc PyVal := []
  metadata : Assoc PyVal := []

/-- A raised `ValidationError`.  The simple checks raise with a fixed message;
the duplicate-id check formats `set(duplicates)` into its message, modelled
here as the deduplicated duplicate-id list carried by the constructor. -/
inductive ValidationErr where
  | required (msg : String)
  | duplicateIds (ids : List String)
  deriving DecidableEq

/-- `validate_widget_spec(spec)` (specs.py lines 92-127); `raise` is modelled
as `Except.error`, falling through as `Except.ok`. -/
def validate_widget_spec (spec : WidgetSpec) : Except ValidationErr Unit :=
  if spec.widget_id = "" then
    .error (.required "widget_id is required")
  else if spec.title = "" then
    .error (.required ("Widget " ++ spec.widget_id ++ ": title is required"))
  else if isNoneV spec.data then
    .error (.required ("Widget " ++ spec.widget_id ++ ": data is required"))
  else if (spec.widget_type ≠ WidgetType.text ∧ spec.widget_type ≠ WidgetType.filter)
      ∧ isStrV spec.data ∧ spec.metrics = [] ∧ spec.dimensions = [] then
    .error (.required ("Widget " ++ spec.widget_id ++
      ": at least one metric or dimension is required when using string data references"))
  else if spec.metrics ≠ [] ∧ spec.widget_type ≠ WidgetType.table
      ∧ spec.aggregation = none then
    .error (.required ("Widget " ++ spec.widget_id ++
      ": aggregation is required when metrics are specified"))
  else
    .ok ()

/-- The `for widget in spec.widgets: validate_widget_spec(widget)` loop:
first raised error wins. -/
def validateWidgets : List WidgetSpec → Except ValidationErr Unit
  | [] => .ok ()
  | w :: ws =>
    match validate_widget_spec w with
    | .error e => .error e
    | .ok _ => validateWidgets ws

/-- `validate_dashboard_spec(spec)` (specs.py lines 129-153).  Python's
`len(widget_ids) != len(set(widget_ids))` is the dedup-length test, and the
raised error carries `set(dup for dup in ids if ids.count(dup) > 1)`. -/
def validate_dashboard_spec (spec : DashboardSpec) : Except ValidationErr Unit :=
  if spec.dashboard_id = "" then
    .error (.required "dashboard_id is required")
  else if spec.title = "" then
    .error (.required "Dashboard title is required")
  else
    match validateWidgets spec.widgets with
    | .error e => .error e
    | .ok _ =>
      let widget_ids := spec.widgets.map WidgetSpec.widget_id
      if widget_ids.length ≠ widget_ids.dedup.length then
        .error (.duplicateIds
          ((widget_ids.filter (fun wid => 1 < widget_ids.count wid)).dedup))
      else
        .ok ()

theorem validateWidgets_ok (ws : List WidgetSpec)
    (h : ∀ w ∈ ws, validate_widget_spec w = .ok ()) :
    validateWidgets ws = .ok () := by
  induction ws with
  | nil => rfl
  | cons w ws ih =>
    have hw := h w (by simp)
    simp only [validateWidgets, hw]
    exact ih (fun w' hw' => h w' (by simp [hw']))

/-- A dashboard whose two individually valid widgets share the id "a" but
whose `dashboard_id` is empty: validation fails on the id check before it
ever reaches the duplicate enumeration. -/
def cexDashboard : DashboardSpec :=
  { dashboard_id := ""
    title := "T"
    widgets :=
      [{ widget_id := "a", widget_type := WidgetType.text, title := "t",
         data := PyVal.vint 1 },
       { widget_id := "a", widget_type := WidgetType.text, title := "t",
         data := PyVal.vint 1 }] }

/-- C5 as frozen is false: a spec whose widgets all pass widget validation and
which contains a duplicated widget_id can fail with an error that does not
enumerate the duplicated ids (the empty-`dashboard_id` error fires first). -/
theorem validate_dashboard_spec_counterexample :
    (∀ w ∈ cexDashboard.widgets, validate_widget_spec w = .ok ())
    ∧ ¬ (cexDashboard.widgets.map WidgetSpec.widget_id).Nodup
    ∧ ¬ ∃ ids, validate_dashboard_spec cexDashboard
          = .error (.duplicateIds ids) := by
  refine ⟨?_, by decide, ?_⟩
  · intro w hw
    fin_cases hw <;> rfl
  · rintro ⟨ids, h⟩
    rw [show validate_dashboard_spec cexDashboard
        = .error (.required "dashboard_id is required") from rfl] at h
    simp at h

/-- C5 (amended) — for every dashboard spec with nonempty `dashboard_id` and
`title` whose widgets all individually pass widget validation, a repeated
widget_id makes `validate_dashboard_spec` fail with an error enumerating
exactly the set of duplicated ids (all of them).  Validation is a pure
function of the spec (it is a plain function here, and the source touches no
state). -/
theorem validate_dashboard_spec_duplicates (spec : DashboardSpec)
    (hid : spec.dashboard_id ≠ "") (htitle : spec.title ≠ "")
    (hw : ∀ w ∈ spec.widgets, validate_widget_spec w = .ok ())
    (hdup : ¬ (spec.widgets.map WidgetSpec.widget_id).Nodup) :
    validate_dashboard_spec spec =
      .error (.duplicateIds
        (((spec.widgets.map WidgetSpec.widget_id).filter
            (fun wid => 1 < (spec.widgets.map WidgetSpec.widget_id).count wid)).dedup))
    ∧ ∀ x,
        (x ∈ ((spec.widgets.map WidgetSpec.widget_id).filter
            (fun wid => 1 < (spec.widgets.map WidgetSpec.widget_id).count wid)).dedup
          ↔ 1 < (spec.widgets.map WidgetSpec.widget_id).count x) := by
  constructor
  · unfold validate_dashboard_spec
    rw [if_neg hid, if_neg htitle, validateWidgets_ok spec.widgets hw]
    set ids := spec.widgets.map WidgetSpec.widget_id with hids
    have hne : ids.length ≠ ids.dedup.length := by
      intro hc
      apply hdup
      have hs : ids.dedup.Sublist ids := List.dedup_sublist ids
      have : ids.dedup = ids := hs.eq_of_length hc.symm
      rw [← this]
      exact List.nodup_dedup ids
    simp only [hne, if_true, ne_eq, not_false_iff, if_pos]
  · intro x
    constructor
    · intro hx
      have := List.mem_dedup.mp hx
      have := List.mem_filter.mp this
      simpa using this.2
    · intro hx
      apply List.mem_dedup.mpr
      apply List.mem_filter.mpr
      refine ⟨?_, by simpa using hx⟩
      exact List.count_pos_iff.mp (Nat.lt_of_lt_of_le Nat.zero_lt_one hx.le)

/-- The spec's concrete test: a 2-widget dashboard with ids "a","a" fails
enumerating exactly the duplicate set, here the list `["a"]`. -/
theorem validate_dashboard_spec_duplicates_witness :
    validate_dashboard_spec
      { cexDashboard with dashboard_id := "dash" }
        = .error (.duplicateIds ["a"]) := by
  have h := (validate_dashboard_spec_duplicates
      { cexDashboard with dashboard_id := "dash" }
      (by decide) (by decide)
      (fun w hw => by fin_cases hw <;> rfl)
      (by decide)).1
  rw [h]
  rfl

/-! ## Spec normalisation (src/core/transform.py) -/

/-- `WidgetConfig` (transform.py lines 14-34). -/
structure WidgetConfig where
  widget_id : String
  widget_type : WidgetType
  title : String
  data_config : Assoc PyVal
  filter_config : Assoc PyVal
  display_config : Assoc PyVal

/-- `DashboardConfig` (transform.py lines 37-58). -/
structure DashboardConfig where
  dashboard_id : String
  title : String
  description : String
  widgets : List WidgetConfig
  layout_config : Assoc PyVal
  global_filter_config : Assoc PyVal
  metadata : Assoc PyVal

/-- The `.value` of an `AggregationType` member. -/
def aggValue : AggregationType → String
  | .sum => "sum"
  | .avg => "avg"
  | .count => "count"
  | .min => "min"
  | .max => "max"
  | .distinct_count => "distinct_count"

/-- The four display keys with defaults in `transform_widget_spec`. -/
def recognizedDisplayKeys : List String :=
  ["show_legend", "color_scheme", "number_format", "date_format"]

/-- `transform_widget_spec(spec)` (transform.py lines 61-101). -/
def transform_widget_spec (spec : WidgetSpec) : WidgetConfig :=
  let data_config : Assoc PyVal :=
    [("data", spec.data),
     ("metrics", PyVal.vlist (spec.metrics.map PyVal.vstr)),
     ("dimensions", PyVal.vlist (spec.dimensions.map PyVal.vstr)),
     ("aggregation",
       match spec.aggregation with
       | some a => PyVal.vstr (aggValue a)
       | none => PyVal.vnone)]
  let filter_config : Assoc PyVal := [("filters", PyVal.vdict spec.filters)]
  let display_config : Assoc PyVal :=
    [("show_legend", Assoc.getD spec.config "show_legend" (PyVal.vbool true)),
     ("color_scheme", Assoc.getD spec.config "color_scheme" (PyVal.vstr "default")),
     ("number_format", Assoc.getD spec.config "number_format" (PyVal.vstr "auto")),
     ("date_format", Assoc.getD spec.config "date_format" (PyVal.vstr "auto"))]
    ++ spec.config.filter (fun p => decide (p.1 ∉ recognizedDisplayKeys))
  ⟨spec.widget_id, spec.widget_type, spec.title,
   data_config, filter_config, display_config⟩

/-- The three layout keys with defaults in `transform_dashboard_spec`. -/
def recognizedLayoutKeys : List String := ["type", "columns", "widget_positions"]

/-- `transform_dashboard_spec(spec)` (transform.py lines 104-140). -/
def transform_dashboard_spec (spec : DashboardSpec) : DashboardConfig :=
  let widget_configs := spec.widgets.map transform_widget_spec
  let layout_config : Assoc PyVal :=
    [("type", Assoc.getD spec.layout "type" (PyVal.vstr "grid")),
     ("columns", Assoc.getD spec.layout "columns" (PyVal.vint 12)),
     ("widget_positions", Assoc.getD spec.layout "widget_positions" (PyVal.vdict []))]
    ++ spec.layout.filter (fun p => decide (p.1 ∉ recognizedLayoutKeys))
  let global_filter_config : Assoc PyVal :=
    [("filters", PyVal.vdict spec.global_filters)]
  ⟨spec.dashboard_id, spec.title, spec.description, widget_configs,
   layout_config, global_filter_config, spec.metadata⟩

/-- `apply_global_filters(widget_config, global_filters)` (transform.py lines
143-176).  `filter_config.get("filters", {})` must be a dict for the Python
`{**global_filters, **...}` literal to evaluate; a non-dict value raises
(`none` here). -/
def apply_global_filters (widget_config : WidgetConfig)
    (global_filters : Assoc PyVal) : Option WidgetConfig :=
  let build : Assoc PyVal → WidgetConfig := fun wf =>
    let merged_filters := Assoc.merge global_filters wf
    let updated_filter_config :=
      Assoc.setItem widget_config.filter_config "filters" (PyVal.vdict merged_filters)
    ⟨widget_config.widget_id, widget_config.widget_type, widget_config.title,
     widget_config.data_config, updated_filter_config, widget_config.display_config⟩
  match Assoc.get? widget_config.filter_config "filters" with
  | some (PyVal.vdict wf) => some (build wf)
  | none => some (build [])
  | some _ => none

/-- The widget's own filter dict inside a `filter_config`. -/
def getFilters (filter_config : Assoc PyVal) : Assoc PyVal :=
  match Assoc.get? filter_config "filters" with
  | some (PyVal.vdict m) => m
  | _ => []

theorem get?_append {α : Type} (a b : Assoc α) (k : String) :
    Assoc.get? (a ++ b) k =
      match Assoc.get? a k with
      | some v => some v
      | none => Assoc.get? b k := by
  induction a with
  | nil => simp
  | cons hd tl ih =>
    obtain ⟨k₀, v₀⟩ := hd
    by_cases hk : k₀ = k <;> simp [hk, ih]

theorem get?_filter {α : Type} (l : Assoc α) (p : String × α → Bool) (k : String)
    (h : ∀ v, p (k, v) = true) :
    Assoc.get? (l.filter p) k = Assoc.get? l k := by
  induction l with
  | nil => rfl
  | cons hd tl ih =>
    obtain ⟨k₀, v₀⟩ := hd
    by_cases hk : k₀ = k
    · subst hk
      rw [List.filter_cons, h v₀]
      simp
    · rw [List.filter_cons]
      cases hp : p (k₀, v₀) <;> simp [hp, hk, ih]

/-- C6 — `apply_global_filters` returns a new config whose filter map is the
global filter map overlaid by the widget's own filters, widget-level keys
winning on every conflicting key, and every other field copied unchanged.
The input config is untouched: the function is pure and builds a fresh
`WidgetConfig` (mutation does not exist in this embedding, mirroring the
source's construction of a new object). -/
theorem apply_global_filters_overlay (wc : WidgetConfig) (g wf : Assoc PyVal)
    (hwf : Assoc.get? wc.filter_config "filters" = some (PyVal.vdict wf))
    (hnodup : (wf.map Prod.fst).Nodup) :
    ∃ wc', apply_global_filters wc g = some wc'
      ∧ getFilters wc'.filter_config = Assoc.merge g wf
      ∧ (∀ k, Assoc.get? (getFilters wc'.filter_config) k =
          match Assoc.get? wf k with
          | some v => some v
          | none => Assoc.get? g k)
      ∧ wc'.widget_id = wc.widget_id ∧ wc'.widget_type = wc.widget_type
      ∧ wc'.title = wc.title ∧ wc'.data_config = wc.data_config
      ∧ wc'.display_config = wc.display_config := by
  have happ : apply_global_filters wc g = some
      ⟨wc.widget_id, wc.widget_type, wc.title, wc.data_config,
       Assoc.setItem wc.filter_config "filters" (PyVal.vdict (Assoc.merge g wf)),
       wc.display_config⟩ := by
    unfold apply_global_filters
    rw [hwf]
  have hgf : getFilters (Assoc.setItem wc.filter_config "filters"
      (PyVal.vdict (Assoc.merge g wf))) = Assoc.merge g wf := by
    unfold getFilters
    rw [Assoc.get?_setItem]
    simp
  refine ⟨_, happ, hgf, ?_, rfl, rfl, rfl, rfl, rfl⟩
  intro k
  rw [hgf]
  have hm := Assoc.get?_merge g wf hnodup k
  cases h : Assoc.get? wf k <;> rw [h] at hm <;> simpa using hm

/-- The spec's concrete test for C6: widget filters `{dept: "IT"}` overlaid on
globals `{dept: "Eng", status: "Active"}` yield `{dept: "IT", status:
"Active"}` (widget-level wins, other global keys kept). -/
theorem apply_global_filters_overlay_witness :
    ∃ wc', apply_global_filters
        ⟨"w1", WidgetType.table, "t", [],
         [("filters", PyVal.vdict [("dept", PyVal.vstr "IT")])], []⟩
        [("dept", PyVal.vstr "Eng"), ("status", PyVal.vstr "Active")] = some wc'
      ∧ Assoc.get? (getFilters wc'.filter_config) "dept" = some (PyVal.vstr "IT")
      ∧ Assoc.get? (getFilters wc'.filter_config) "status"
          = some (PyVal.vstr "Active") := by
  obtain ⟨wc', h1, _, h2, _⟩ := apply_global_filters_overlay
    ⟨"w1", WidgetType.table, "t", [],
     [("filters", PyVal.vdict [("dept", PyVal.vstr "IT")])], []⟩
    [("dept", PyVal.vstr "Eng"), ("status", PyVal.vstr "Active")]
    [("dept", PyVal.vstr "IT")] rfl (by decide)
  refine ⟨wc', h1, (h2 "dept").trans ?_, (h2 "status").trans ?_⟩ <;> rfl

/-- C7 — `transform_dashboard_spec` normalizes the widgets in their original
order, and its `layout_config` has `columns` equal to `layout["columns"]`
when present (else the integer 12), `type` defaulting to `"grid"`,
`widget_positions` defaulting to the empty dict, and every other layout key
passed through unchanged. -/
theorem transform_dashboard_spec_layout (spec : DashboardSpec) :
    (transform_dashboard_spec spec).widgets = spec.widgets.map transform_widget_spec
    ∧ Assoc.get? (transform_dashboard_spec spec).layout_config "columns"
        = some (Assoc.getD spec.layout "columns" (PyVal.vint 12))
    ∧ Assoc.get? (transform_dashboard_spec spec).layout_config "type"
        = some (Assoc.getD spec.layout "type" (PyVal.vstr "grid"))
    ∧ Assoc.get? (transform_dashboard_spec spec).layout_config "widget_positions"
        = some (Assoc.getD spec.layout "widget_positions" (PyVal.vdict []))
    ∧ ∀ k, k ∉ recognizedLayoutKeys →
        Assoc.get? (transform_dashboard_spec spec).layout_config k
          = Assoc.get? spec.layout k := by
  refine ⟨rfl, ?_, ?_, ?_, ?_⟩
  · unfold transform_dashboard_spec
    rw [get?_append]
    simp [Assoc.get?]
  · unfold transform_dashboard_spec
    rw [get?_append]
    simp [Assoc.get?]
  · unfold transform_dashboard_spec
    rw [get?_append]
    simp [Assoc.get?]
  · intro k hk
    unfold transform_dashboard_spec
    rw [get?_append]
    have h1 : k ≠ "type" := fun hc => hk (by simp [recognizedLayoutKeys, hc])
    have h2 : k ≠ "columns" := fun hc => hk (by simp [recognizedLayoutKeys, hc])
    have h3 : k ≠ "widget_positions" :=
      fun hc => hk (by simp [recognizedLayoutKeys, hc])
    have h1' : ¬ (("type" : String) = k) := fun hc => h1 hc.symm
    have h2' : ¬ (("columns" : String) = k) := fun hc => h2 hc.symm
    have h3' : ¬ (("widget_positions" : String) = k) := fun hc => h3 hc.symm
    have hpre : Assoc.get?
        [("type", Assoc.getD spec.layout "type" (PyVal.vstr "grid")),
         ("columns", Assoc.getD spec.layout "columns" (PyVal.vint 12)),
         ("widget_positions",
           Assoc.getD spec.layout "widget_positions" (PyVal.vdict []))] k = none := by
      simp [Assoc.get?, h1', h2', h3']
    rw [hpre]
    exact get?_filter spec.layout _ k (fun v => by simp [hk])

/-- A closed instance of C7's pass-through clause: a layout with an explicit
`columns` and an extra key keeps both through normalisation. -/
theorem transform_dashboard_spec_layout_witness :
    Assoc.get? (transform_dashboard_spec
        { dashboard_id := "d", title := "T",
          layout := [("columns", PyVal.vint 6), ("gap", PyVal.vint 4)] }).layout_config
        "columns" = some (PyVal.vint 6)
    ∧ Assoc.get? (transform_dashboard_spec
        { dashboard_id := "d", title := "T",
          layout := [("columns", PyVal.vint 6), ("gap", PyVal.vint 4)] }).layout_config
        "gap" = some (PyVal.vint 4) := by
  constructor
  · exact ((transform_dashboard_spec_layout _).2.1).trans rfl
  · exact (((transform_dashboard_spec_layout _).2.2.2.2) "gap" (by decide)).trans rfl

/-! ## Result transformer (src/agents/response_generator.py)

Database cells are `None`, strings, or numbers (SQLite REAL/INTEGER, modelled
as `ℚ`).  A pandas DataFrame built from a list of row dicts is modelled as
that list of rows.  Python exceptions escaping `generate_response` (caught by
the orchestrator) are modelled as `Option.none`. -/

/-- One database cell. -/
inductive Cell where
  | cnull
  | cstr (s : String)
  | cnum (q : ℚ)
  deriving DecidableEq

/-- One result row, a dict from column name to cell. -/
abbrev Row := Assoc Cell

/-- The `data` field of a database-agent result: `None`, a row list, or a
scalar dict such as `{"value": ..., "field": ...}`. -/
inductive DBData where
  | dnone
  | drows (rows : List Row)
  | dscalar (m : Assoc Cell)

/-- A database-agent result dict.  `none` in an `Option` field means the key
is absent (the agents always set the keys they use, so `.get` defaults appear
explicitly at use sites). -/
structure DBResults where
  success : Option Bool := none
  error : Option String := none
  query_type : Option String := none
  data : Option DBData := none
  row_count : Option Int := none
  group_field : Option String := none

/-- The intent record produced by `NLUAgent.process_query` (nlu_agent.py
lines 123-163): all keys always present, optional ones possibly `None`. -/
structure IntentData where
  intent : String
  confidence : ℚ
  entities : Assoc String
  filter_criteria : Option (Assoc ℚ)
  aggregation_type : Option String
  group_by_field : Option String
  explanation : String
  original_query : String

/-- The `data` argument of a `WidgetSpec` built by the response generator:
either the scalar dict `{"value": ...}` or a pandas DataFrame (its rows). -/
inductive RespData where
  | scalarDict (m : Assoc Cell)
  | frame (rows : List Row)
  deriving DecidableEq

/-- A `WidgetSpec(widget_id=…, widget_type=…, title=…, data=…)` constructor
call in the response generator; the remaining dataclass fields keep their
defaults and are omitted. -/
structure RespWidget where
  widget_id : String
  widget_type : WidgetType
  title : String
  data : RespData
  deriving DecidableEq

/-- The `{"widgets": …, "message": …, "success": …}` dict returned by
`ResponseGenerator.generate_response`. -/
structure GenResponse where
  widgets : List RespWidget
  message : String
  success : Bool
  deriving DecidableEq

/-! ### Python number formatting -/

/-- `x * 100` rounded to the nearest integer, ties to even (the rounding used
by Python's fixed-point `format`), computed on the exact rational through its
numerator and denominator. -/
def centsOf (q : ℚ) : ℤ :=
  let n := 100 * q.num
  let d : ℤ := q.den
  let f := n.fdiv d
  let rem2 := 2 * (n - f * d)
  if rem2 < d then f
  else if d < rem2 then f + 1
  else if f % 2 = 0 then f else f + 1

/-- Insert a comma before every later group of three digits; the input and
output digit lists are least-significant first. -/
def insertCommasAux : List Char → Nat → List Char
  | [], _ => []
  | c :: rest, i =>
      if i ≠ 0 ∧ i % 3 = 0 then ',' :: c :: insertCommasAux rest (i + 1)
      else c :: insertCommasAux rest (i + 1)

/-- Thousands grouping of a natural number, as in Python's `,` format flag. -/
def commaFmt (n : Nat) : String :=
  String.mk ((insertCommasAux (toString n).data.reverse 0).reverse)

/-- Two-digit rendering of a cents value in `[0, 100)`. -/
def twoDigits (c : Nat) : String :=
  if c < 10 then "0" ++ toString c else toString c

/-- Python `f"{x:,.2f}"`. -/
def fmtNum2 (q : ℚ) : String :=
  let cents := centsOf q
  let sign := if cents < 0 then "-" else ""
  sign ++ commaFmt (cents.natAbs / 100) ++ "." ++ twoDigits (cents.natAbs % 100)

/-- Python `f"${x:,.2f}"` — the currency format used throughout the
response generator. -/
def fmtMoney (q : ℚ) : String := "$" ++ fmtNum2 q

/-- Python `int(x)` on a real value (truncation toward zero). -/
def pyInt (q : ℚ) : ℤ := q.num.tdiv q.den

/-- Python `f"{n:,}"` on an integer. -/
def fmtIntComma (n : ℤ) : String :=
  (if n < 0 then "-" else "") ++ commaFmt n.natAbs

/-- Python `str.title()`: the first letter of every alphabetic run is
uppercased, the rest lowercased. -/
def pyTitle (s : String) : String :=
  String.mk ((s.data.foldl (fun acc c =>
    let out := if c.isAlpha then (if acc.1 then c.toLower else c.toUpper) else c
    (c.isAlpha, out :: acc.2)) (false, [])).2.reverse)

/-! ### The response builders -/

/-- The currency lambda in `_create_table_response`:
`lambda x: f"${x:,.2f}" if pd.notna(x) else "N/A"`.  `pd.notna` is false on
`None`/NaN; applying the numeric format to a string raises (hence `none`). -/
def fmtCell : Cell → Option Cell
  | Cell.cnum q => some (Cell.cstr (fmtMoney q))
  | Cell.cnull => some (Cell.cstr "N/A")
  | Cell.cstr _ => none

/-- `"current_value" in df.columns`: a DataFrame built from row dicts has the
union of the rows' keys as columns. -/
def hasCurrentValueCol (rows : List Row) : Bool :=
  rows.any (fun r => Assoc.hasKey r "current_value")

/-- Apply the currency lambda to one row's `current_value` cell.  A row
missing the key holds NaN in that DataFrame column, which formats to
`"N/A"`. -/
def fmtRowValue (r : Row) : Option Row :=
  match Assoc.get? r "current_value" with
  | none => some (r ++ [("current_value", Cell.cstr "N/A")])
  | some c => (fmtCell c).map (fun c' => Assoc.setItem r "current_value" c')

/-- The `df["current_value"] = df["current_value"].apply(...)` step, a no-op
when the column is absent. -/
def formatRows (rows : List Row) : Option (List Row) :=
  if hasCurrentValueCol rows then rows.mapM fmtRowValue else some rows

/-- `column_mapping` (response_generator.py lines 113-125). -/
def column_mapping : Assoc String :=
  [("asset_tag", "Asset Tag"), ("name", "Equipment Name"),
   ("category", "Category"), ("department", "Department"),
   ("status", "Status"), ("current_value", "Value"),
   ("location", "Location"), ("assigned_to", "Assigned To"),
   ("condition", "Condition"), ("next_maintenance_date", "Next Maintenance"),
   ("last_maintenance_date", "Last Maintenance")]

/-- `df.rename(columns=column_mapping)`: unmapped columns keep their name. -/
def renameRow (r : Row) : Row :=
  r.map (fun p => (Assoc.getD column_mapping p.1 p.1, p.2))

/-- `ResponseGenerator._create_table_response` (response_generator.py lines
92-147).  `pd.DataFrame` of a scalar dict raises, as does formatting a
string-valued `current_value` cell. -/
def create_table_response (db : DBResults) : Option GenResponse :=
  match db.data with
  | some (DBData.dscalar _) => none
  | d =>
      let data : List Row :=
        match d with
        | some (DBData.drows rows) => rows
        | _ => []
      let row_count : Int := (db.row_count).getD 0
      if data.isEmpty then
        some ⟨[], "No equipment found matching your criteria", true⟩
      else
        match formatRows data with
        | none => none
        | some fr =>
            some ⟨[⟨"equipment_table", WidgetType.table, "Equipment List",
                    RespData.frame (fr.map renameRow)⟩],
                  "✓ Found " ++ toString row_count ++ " equipment item"
                    ++ (if row_count ≠ 1 then "s" else ""), true⟩

/-- The `field` of a scalar result dict.  A non-string value never equals the
compared string literals; it is modelled as the empty string (the database
agent only ever stores strings here). -/
def cellFieldStr (data : Assoc Cell) (dflt : String) : String :=
  match Assoc.getD data "field" (Cell.cstr dflt) with
  | Cell.cstr s => s
  | _ => ""

/-- `ResponseGenerator._create_aggregate_response` (response_generator.py
lines 51-90).  `data.get` on `None` or on a list raises; every branch's
number format raises on a `None` or string value. -/
def create_aggregate_response (intent_data : IntentData) (db : DBResults) :
    Option GenResponse :=
  match db.data with
  | some DBData.dnone => none
  | some (DBData.drows _) => none
  | d =>
      let data : Assoc Cell :=
        match d with
        | some (DBData.dscalar m) => m
        | _ => []
      let field := cellFieldStr data "count"
      match Assoc.getD data "value" (Cell.cnum 0) with
      | Cell.cnum value =>
          let widget := fun (title : String) =>
            RespWidget.mk ("aggregate_" ++ field) WidgetType.scorecard title
              (RespData.scalarDict [("value", Cell.cnum value)])
          if field = "total"
              ∨ strContains (toLowerStr intent_data.original_query) "value" then
            some ⟨[widget "Total Equipment Value"],
                  "✓ Total Equipment Value: " ++ fmtMoney value, true⟩
          else if field = "count" then
            some ⟨[widget "Equipment Count"],
                  "✓ Equipment Count: " ++ fmtIntComma (pyInt value), true⟩
          else if field = "avg_price" then
            some ⟨[widget "Average Price"],
                  "✓ Average Price: " ++ fmtMoney value, true⟩
          else
            some ⟨[widget "Result"], "✓ Result: " ++ fmtNum2 value, true⟩
      | _ => none

/-- `ResponseGenerator._create_group_by_response` (response_generator.py
lines 149-188).  The column projection `df[["group_name", "count"]]` needs
both columns in every row; the count sum needs numeric counts (string counts
would concatenate and then fail `int()`). -/
def create_group_by_response (db : DBResults) : Option GenResponse :=
  match db.data with
  | some (DBData.dscalar _) => none
  | d =>
      let data : List Row :=
        match d with
        | some (DBData.drows rows) => rows
        | _ => []
      let group_field := (db.group_field).getD "department"
      if data.isEmpty then
        some ⟨[], "No data found", true⟩
      else
        match data.mapM (fun r =>
            match Assoc.get? r "group_name", Assoc.get? r "count" with
            | some g, some c => some ((g, c))
            | _, _ => none) with
        | none => none
        | some pairs =>
            match pairs.mapM (fun p =>
                match p.2 with
                | Cell.cnum q => some q
                | _ => none) with
            | none => none
            | some counts =>
                let chart := pairs.map (fun p =>
                  [(pyTitle group_field, p.1), ("Count", p.2)])
                let total : ℚ := counts.foldl (fun a b => a + b) 0
                some ⟨[⟨"group_by_chart", WidgetType.bar_chart,
                        "Equipment by " ++ pyTitle group_field,
                        RespData.frame chart⟩],
                      "✓ Showing " ++ toString data.length ++ " " ++ group_field
                        ++ "s with " ++ toString (pyInt total) ++ " total items",
                      true⟩

/-- `ResponseGenerator._create_financial_response` (response_generator.py
lines 190-224).  `abs` raises on `None`/string values. -/
def create_financial_response (db : DBResults) : Option GenResponse :=
  match db.data with
  | some DBData.dnone => none
  | some (DBData.drows _) => none
  | d =>
      let data : Assoc Cell :=
        match d with
        | some (DBData.dscalar m) => m
        | _ => []
      let field := cellFieldStr data "total_depreciation"
      match Assoc.getD data "value" (Cell.cnum 0) with
      | Cell.cnum value =>
          if field = "total_depreciation" then
            some ⟨[⟨"financial_metric", WidgetType.scorecard, "Total Depreciation",
                    RespData.scalarDict [("value", Cell.cnum |value|)]⟩],
                  "✓ Total Depreciation: " ++ fmtMoney |value|, true⟩
          else
            some ⟨[⟨"financial_metric", WidgetType.scorecard, "Financial Result",
                    RespData.scalarDict [("value", Cell.cnum |value|)]⟩],
                  "✓ Result: " ++ fmtMoney value, true⟩
      | _ => none

/-- `ResponseGenerator.generate_response` (response_generator.py lines
15-49): failure short-circuit, then dispatch on `query_type`. -/
def generate_response (intent_data : IntentData) (db : DBResults) :
    Option GenResponse :=
  if db.success ≠ some true then
    some ⟨[], "❌ Error: " ++ (db.error).getD "Unknown error", false⟩
  else
    match db.query_type with
    | some "aggregate" => create_aggregate_response intent_data db
    | some "filtered" => create_table_response db
    | some "status" => create_table_response db
    | some "maintenance" => create_table_response db
    | some "group_by" => create_group_by_response db
    | some "financial" => create_financial_response db
    | _ => some ⟨[], "✓ Query executed successfully", true⟩

/-- C8 — whenever the query-result record reports failure (`success` unset or
false), the transformer performs no transformation: it returns zero widgets,
`success=false`, and the single-line message that carries the reported error
verbatim after the fixed prefix; the result does not depend on the intent
record at all (no stage-specific work runs). -/
theorem generate_response_failure (i i' : IntentData) (db : DBResults)
    (h : db.success ≠ some true) :
    generate_response i db =
      some ⟨[], "❌ Error: " ++ (db.error).getD "Unknown error", false⟩
    ∧ generate_response i db = generate_response i' db := by
  unfold generate_response
  rw [if_pos h, if_pos h]
  exact ⟨rfl, rfl⟩

/-- A closed instance of C8: an explicit failed result with `success=False`
and error "boom" yields zero widgets and the prefixed verbatim message,
independently of two different intent records. -/
theorem generate_response_failure_witness :
    generate_response
        ⟨"filtered_query", 1, [], none, none, none, "", "q1"⟩
        { success := some false, error := some "boom" }
      = some ⟨[], "❌ Error: boom", false⟩
    ∧ generate_response
        ⟨"filtered_query", 1, [], none, none, none, "", "q1"⟩
        { success := some false, error := some "boom" }
      = generate_response
        ⟨"aggregate_query", 0, [("category", "X")], none, some "sum", none, "e", "q2"⟩
        { success := some false, error := some "boom" } :=
  generate_response_failure _ _ _ (by simp)

/-- C9 — for a successful result of query_type `filtered`/`status`/
`maintenance`: an empty row sequence yields zero widgets and the message
"No equipment found matching your criteria" (no empty table widget); a
non-empty row sequence yields exactly one table widget whose frame is the
row sequence with the `current_value` column currency-formatted and the
columns renamed through the fixed `column_mapping` display table (in
particular `asset_tag` to "Asset Tag"). -/
theorem generate_response_table (i : IntentData) (db : DBResults) (qt : String)
    (hs : db.success = some true)
    (hq : db.query_type = some qt)
    (hqt : qt = "filtered" ∨ qt = "status" ∨ qt = "maintenance") :
    (db.data = some (DBData.drows []) →
      generate_response i db =
        some ⟨[], "No equipment found matching your criteria", true⟩)
    ∧ (∀ rows fr, rows ≠ [] → db.data = some (DBData.drows rows) →
        formatRows rows = some fr →
        generate_response i db =
          some ⟨[⟨"equipment_table", WidgetType.table, "Equipment List",
                  RespData.frame (fr.map renameRow)⟩],
                "✓ Found " ++ toString ((db.row_count).getD 0) ++ " equipment item"
                  ++ (if (db.row_count).getD 0 ≠ 1 then "s" else ""), true⟩)
    ∧ Assoc.get? column_mapping "asset_tag" = some "Asset Tag" := by
  have hdisp : generate_response i db = create_table_response db := by
    unfold generate_response
    rw [if_neg (by simp [hs]), hq]
    rcases hqt with h | h | h <;> subst h <;> rfl
  refine ⟨?_, ?_, rfl⟩
  · intro hd
    rw [hdisp]
    unfold create_table_response
    rw [hd]
    rfl
  · intro rows fr hne hd hfr
    rw [hdisp]
    unfold create_table_response
    rw [hd]
    have hempty : rows.isEmpty = false := by
      cases rows with
      | nil => exact absurd rfl hne
      | cons a l => rfl
    simp only [hempty, Bool.false_eq_true, if_false, hfr]

/-- A closed instance of C9, both branches: an empty filtered result gives the
no-results message and zero widgets; a one-row result gives one table widget
with the value column formatted to `$1,999.50` under the renamed "Value"
column and `asset_tag` renamed to "Asset Tag". -/
theorem generate_response_table_witness :
    generate_response ⟨"filtered_query", 1, [], none, none, none, "", "q"⟩
        { success := some true, query_type := some "filtered",
          data := some (DBData.drows []), row_count := some 0 }
      = some ⟨[], "No equipment found matching your criteria", true⟩
    ∧ generate_response ⟨"filtered_query", 1, [], none, none, none, "", "q"⟩
        { success := some true, query_type := some "filtered",
          data := some (DBData.drows
            [[("asset_tag", Cell.cstr "IT-001"),
              ("current_value", Cell.cnum (mkRat 39990 20))]]),
          row_count := some 1 }
      = some ⟨[⟨"equipment_table", WidgetType.table, "Equipment List",
               RespData.frame
                 [[("Asset Tag", Cell.cstr "IT-001"),
                   ("Value", Cell.cstr "$1,999.50")]]⟩],
              "✓ Found 1 equipment item", true⟩ := by
  constructor
  · exact (generate_response_table _ _ "filtered" rfl rfl (Or.inl rfl)).1 rfl
  · have h := (generate_response_table
        ⟨"filtered_query", 1, [], none, none, none, "", "q"⟩
        { success := some true, query_type := some "filtered",
          data := some (DBData.drows
            [[("asset_tag", Cell.cstr "IT-001"),
              ("current_value", Cell.cnum (mkRat 39990 20))]]),
          row_count := some 1 }
        "filtered" rfl rfl (Or.inl rfl)).2.1
        [[("asset_tag", Cell.cstr "IT-001"),
          ("current_value", Cell.cnum (mkRat 39990 20))]]
        [[("asset_tag", Cell.cstr "IT-001"),
          ("current_value", Cell.cstr (fmtMoney (mkRat 39990 20)))]]
        (by simp) rfl (by rfl)
    rw [h]
    decide

/-! ## Intent classifier normalization (src/agents/nlu_agent.py) -/

/-- The structured output of the external classification model
(`IntentClassification`, nlu_agent.py lines 33-60); `intent` stands for the
enum member's `.value` string. -/
structure IntentClassification where
  intent : String
  confidence : ℚ
  department : Option String := none
  category : Option String := none
  status : Option String := none
  condition : Option String := none
  equipment_name : Option String := none
  price_min : Option ℚ := none
  price_max : Option ℚ := none
  aggregation_type : Option String := none
  group_by_field : Option String := none
  explanation : String := ""

/-- One `if classification.field:` guard of the entity block: a `None` or
empty-string field contributes nothing (Python truthiness). -/
def entryIf (k : String) (v : Option String) : Assoc String :=
  match v with
  | some s => if s = "" then [] else [(k, s)]
  | none => []

/-- One `if classification.price is not None:` guard of the filter block:
any non-`None` value is kept, including `0`. -/
def priceEntry (k : String) (v : Option ℚ) : Assoc ℚ :=
  match v with
  | some q => [(k, q)]
  | none => []

/-- `NLUAgent.process_query` after classification (nlu_agent.py lines
123-163): build the entities dict by truthiness, the filter-criteria dict by
is-not-None, and return `None` instead of an empty filter dict. -/
def nlu_process_query (c : IntentClassification) (user_query : String) :
    IntentData :=
  let entities :=
    entryIf "department" c.department ++ entryIf "category" c.category
      ++ entryIf "status" c.status ++ entryIf "condition" c.condition
      ++ entryIf "equipment_name" c.equipment_name
  let filter_criteria :=
    priceEntry "price_min" c.price_min ++ priceEntry "price_max" c.price_max
  { intent := c.intent
    confidence := c.confidence
    entities := entities
    filter_criteria := if filter_criteria.isEmpty then none else some filter_criteria
    aggregation_type := c.aggregation_type
    group_by_field := c.group_by_field
    explanation := c.explanation
    original_query := user_query }

theorem get?_entryIf_ne (k k' : String) (v : Option String) (h : k ≠ k') :
    Assoc.get? (entryIf k v) k' = none := by
  cases v with
  | none => rfl
  | some s => by_cases hs : s = "" <;> simp [entryIf, hs, h]

theorem get?_priceEntry_ne (k k' : String) (v : Option ℚ) (h : k ≠ k') :
    Assoc.get? (priceEntry k v) k' = none := by
  cases v with
  | none => rfl
  | some q => simp [priceEntry, h]

/-- C10 — in the classifier-normalization step, an entity field returned as
the empty string is omitted from the entities map (membership by
truthiness), a `price_min`/`price_max` equal to `0` is kept in
`filter_criteria` (membership by is-not-`None`), and with no price bound the
returned `filter_criteria` is `None` rather than an empty map. -/
theorem nlu_process_query_normalization (c : IntentClassification) (q : String) :
    (c.department = some "" →
      Assoc.hasKey (nlu_process_query c q).entities "department" = false)
    ∧ (c.category = some "" →
      Assoc.hasKey (nlu_process_query c q).entities "category" = false)
    ∧ (c.status = some "" →
      Assoc.hasKey (nlu_process_query c q).entities "status" = false)
    ∧ (c.condition = some "" →
      Assoc.hasKey (nlu_process_query c q).entities "condition" = false)
    ∧ (c.equipment_name = some "" →
      Assoc.hasKey (nlu_process_query c q).entities "equipment_name" = false)
    ∧ (∀ s, c.department = some s → s ≠ "" →
      Assoc.get? (nlu_process_query c q).entities "department" = some s)
    ∧ (c.price_min = some 0 →
      ∃ m, (nlu_process_query c q).filter_criteria = some m
        ∧ Assoc.get? m "price_min" = some 0)
    ∧ (c.price_max = some 0 →
      ∃ m, (nlu_process_query c q).filter_criteria = some m
        ∧ Assoc.get? m "price_max" = some 0)
    ∧ (c.price_min = none → c.price_max = none →
      (nlu_process_query c q).filter_criteria = none) := by
  refine ⟨?_, ?_, ?_, ?_, ?_, ?_, ?_, ?_, ?_⟩
  · intro h
    unfold nlu_process_query Assoc.hasKey
    simp only [get?_append, h]
    rw [show entryIf "department" (some "") = [] from rfl]
    rw [Assoc.get?_nil,
      get?_entryIf_ne "category" "department" _ (by decide),
      get?_entryIf_ne "status" "department" _ (by decide),
      get?_entryIf_ne "condition" "department" _ (by decide),
      get?_entryIf_ne "equipment_name" "department" _ (by decide)]
    rfl
  · intro h
    unfold nlu_process_query Assoc.hasKey
    simp only [get?_append, h]
    rw [show entryIf "category" (some "") = [] from rfl]
    rw [get?_entryIf_ne "department" "category" _ (by decide), Assoc.get?_nil,
      get?_entryIf_ne "status" "category" _ (by decide),
      get?_entryIf_ne "condition" "category" _ (by decide),
      get?_entryIf_ne "equipment_name" "category" _ (by decide)]
    rfl
  · intro h
    unfold nlu_process_query Assoc.hasKey
    simp only [get?_append, h]
    rw [show entryIf "status" (some "") = [] from rfl]
    rw [get?_entryIf_ne "department" "status" _ (by decide),
      get?_entryIf_ne "category" "status" _ (by decide), Assoc.get?_nil,
      get?_entryIf_ne "condition" "status" _ (by decide),
      get?_entryIf_ne "equipment_name" "status" _ (by decide)]
    rfl
  · intro h
    unfold nlu_process_query Assoc.hasKey
    simp only [get?_append, h]
    rw [show entryIf "condition" (some "") = [] from rfl]
    rw [get?_entryIf_ne "department" "condition" _ (by decide),
      get?_entryIf_ne "category" "condition" _ (by decide),
      get?_entryIf_ne "status" "condition" _ (by decide), Assoc.get?_nil,
      get?_entryIf_ne "equipment_name" "condition" _ (by decide)]
    rfl
  · intro h
    unfold nlu_process_query Assoc.hasKey
    simp only [get?_append, h]
    rw [show entryIf "equipment_name" (some "") = [] from rfl]
    rw [get?_entryIf_ne "department" "equipment_name" _ (by decide),
      get?_entryIf_ne "category" "equipment_name" _ (by decide),
      get?_entryIf_ne "status" "equipment_name" _ (by decide),
      get?_entryIf_ne "condition" "equipment_name" _ (by decide)]
    rfl
  · intro s h hs
    unfold nlu_process_query
    simp only [get?_append, h]
    simp [entryIf, hs]
  · intro h
    unfold nlu_process_query
    simp only [h]
    refine ⟨priceEntry "price_min" (some 0) ++ priceEntry "price_max" c.price_max,
      ?_, ?_⟩
    · have hne : (priceEntry "price_min" (some 0)
          ++ priceEntry "price_max" c.price_max).isEmpty = false := by
        simp [priceEntry]
      simp [hne]
    · simp [priceEntry, Assoc.get?]
  · intro h
    unfold nlu_process_query
    simp only [h]
    refine ⟨priceEntry "price_min" c.price_min ++ priceEntry "price_max" (some 0),
      ?_, ?_⟩
    · have hne : (priceEntry "price_min" c.price_min
          ++ priceEntry "price_max" (some 0)).isEmpty = false := by
        cases c.price_min <;> simp [priceEntry]
      simp [hne]
    · rw [get?_append, get?_priceEntry_ne "price_min" "price_max" _ (by decide)]
      simp [priceEntry, Assoc.get?]
  · intro hmin hmax
    unfold nlu_process_query
    simp [hmin, hmax, priceEntry]

/-- A closed instance of C10: a classification with an empty `status`, a
non-empty `department`, and `price_min = 0` keeps the department, omits the
status, and keeps the zero price bound; one with no price bounds yields a
`None` filter-criteria field. -/
theorem nlu_process_query_normalization_witness :
    Assoc.hasKey (nlu_process_query
        { intent := "filtered_query", confidence := 1,
          department := some "IT", status := some "", price_min := some 0 }
        "q").entities "status" = false
    ∧ Assoc.get? (nlu_process_query
        { intent := "filtered_query", confidence := 1,
          department := some "IT", status := some "", price_min := some 0 }
        "q").entities "department" = some "IT"
    ∧ (∃ m, (nlu_process_query
        { intent := "filtered_query", confidence := 1,
          department := some "IT", status := some "", price_min := some 0 }
        "q").filter_criteria = some m ∧ Assoc.get? m "price_min" = some 0)
    ∧ (nlu_process_query
        { intent := "unknown", confidence := 0 } "q").filter_criteria = none := by
  have h := nlu_process_query_normalization
    { intent := "filtered_query", confidence := 1,
      department := some "IT", status := some "", price_min := some 0 } "q"
  have h2 := nlu_process_query_normalization
    { intent := "unknown", confidence := 0 } "q"
  exact ⟨h.2.2.1 rfl, h.2.2.2.2.2.1 "IT" rfl (by decide),
    h.2.2.2.2.2.2.1 rfl, h2.2.2.2.2.2.2.2.2 rfl rfl⟩

/-! ## Orchestration pipeline (src/agents/orchestrator.py)

The LangGraph workflow is a fixed linear chain nlu → database → response;
`workflow.invoke` is the composition of the three node functions on the
initial state.  The three collaborators (classifier, storage agent, response
generator) are parameters of the pipeline: a `.error` result models a raised
exception caught by the node's `try/except`. -/

/-- `AgentState` (orchestrator.py lines 18-26).  The `{}` placeholders of the
initial state are `none`/defaults. -/
structure AgentState where
  user_input : String
  intent_data : Option IntentData
  db_results : DBResults
  response : Option GenResponse
  widgets : List RespWidget
  message : String
  error : Option String

/-- Python truthiness of `state.get("error")`: set and non-empty. -/
def errSet : Option String → Prop
  | some s => s ≠ ""
  | none => False

instance (o : Option String) : Decidable (errSet o) := by
  cases o with
  | none => exact isFalse (fun h => h)
  | some s => exact inferInstanceAs (Decidable (s ≠ ""))

/-- `Orchestrator._nlu_node` (orchestrator.py lines 55-67). -/
def nlu_node (nluF : String → Except String IntentData) (s : AgentState) :
    AgentState :=
  match nluF s.user_input with
  | .ok intent_data => { s with intent_data := some intent_data, error := none }
  | .error e =>
      { s with error := some ("NLU Error: " ++ e), intent_data := none }

/-- `Orchestrator._database_node` (orchestrator.py lines 69-83). -/
def database_node (dbF : Option IntentData → Except String DBResults)
    (s : AgentState) : AgentState :=
  if errSet s.error then s
  else
    match dbF s.intent_data with
    | .ok db => { s with db_results := db }
    | .error e =>
        { s with
          error := some ("Database Error: " ++ e),
          db_results := { success := some false, error := some e } }

/-- `Orchestrator._response_node` (orchestrator.py lines 85-105). -/
def response_node
    (respF : Option IntentData → DBResults → Except String GenResponse)
    (s : AgentState) : AgentState :=
  if errSet s.error then
    { s with widgets := [], message := "❌ " ++ s.error.getD "" }
  else
    match respF s.intent_data s.db_results with
    | .ok response =>
        { s with
          response := some response,
          widgets := response.widgets,
          message := response.message }
    | .error e =>
        { s with
          error := some ("Response Error: " ++ e),
          widgets := [],
          message := "❌ " ++ ("Response Error: " ++ e) }

/-- The terminal dict of `Orchestrator.process_query`. -/
structure PipelineResult where
  widgets : List RespWidget
  message : String
  intent : String
  success : Bool
  deriving DecidableEq

/-- `Orchestrator.process_query` (orchestrator.py lines 107-135): run the
linear workflow on the initial state and project the terminal output;
`success = (error is None)`. -/
def orchestrator_process_query
    (nluF : String → Except String IntentData)
    (dbF : Option IntentData → Except String DBResults)
    (respF : Option IntentData → DBResults → Except String GenResponse)
    (user_input : String) : PipelineResult :=
  let initial : AgentState := ⟨user_input, none, {}, none, [], "", none⟩
  let final := response_node respF (database_node dbF (nlu_node nluF initial))
  ⟨final.widgets, final.message,
   (final.intent_data.map IntentData.intent).getD "unknown",
   final.error.isNone⟩

theorem append_ne_empty_left (p e : String) (hp : p.data ≠ []) : p ++ e ≠ "" := by
  intro hc
  apply hp
  have hdata := congrArg String.data hc
  rw [String.data_append] at hdata
  exact (List.append_eq_nil.mp hdata).1

/-- C1 — when the classification stage fails, the terminal output has
`success = false` and zero widgets; the database stage and the transformer
stage are no-ops that pass the error through (the database node returns its
input state unchanged, the response node only clears the widgets and writes
the prefixed error message); and the storage and transformer collaborators
are never consulted: the whole run is identical for every choice of them. -/
theorem orchestrator_short_circuit
    (nluF : String → Except String IntentData) (input e : String)
    (hfail : nluF input = .error e)
    (dbF dbF' : Option IntentData → Except String DBResults)
    (respF respF' : Option IntentData → DBResults → Except String GenResponse) :
    (orchestrator_process_query nluF dbF respF input).success = false
    ∧ (orchestrator_process_query nluF dbF respF input).widgets = []
    ∧ orchestrator_process_query nluF dbF respF input
        = orchestrator_process_query nluF dbF' respF' input
    ∧ (∀ s : AgentState, errSet s.error → database_node dbF s = s)
    ∧ (∀ s : AgentState, errSet s.error → response_node respF s
        = { s with widgets := [], message := "❌ " ++ s.error.getD "" }) := by
  have herr : errSet (some ("NLU Error: " ++ e)) :=
    append_ne_empty_left "NLU Error: " e (by decide)
  refine ⟨?_, ?_, ?_, ?_, ?_⟩
  · simp [orchestrator_process_query, nlu_node, database_node, response_node,
      hfail, herr]
  · simp [orchestrator_process_query, nlu_node, database_node, response_node,
      hfail, herr]
  · simp [orchestrator_process_query, nlu_node, database_node, response_node,
      hfail, herr]
  · intro s hs
    unfold database_node
    rw [if_pos hs]
  · intro s hs
    unfold response_node
    rw [if_pos hs]

/-- A closed instance of C1: a failing classifier ("model unavailable")
yields `success=false` and zero widgets, and the run is bit-identical under
two different storage/transformer collaborators, one of which always
fails. -/
theorem orchestrator_short_circuit_witness :
    (orchestrator_process_query (fun _ => .error "model unavailable")
        (fun _ => .ok { success := some true })
        (fun _ _ => .ok ⟨[], "ok", true⟩) "show laptops").success = false
    ∧ (orchestrator_process_query (fun _ => .error "model unavailable")
        (fun _ => .ok { success := some true })
        (fun _ _ => .ok ⟨[], "ok", true⟩) "show laptops").widgets = []
    ∧ orchestrator_process_query (fun _ => .error "model unavailable")
        (fun _ => .ok { success := some true })
        (fun _ _ => .ok ⟨[], "ok", true⟩) "show laptops"
      = orchestrator_process_query (fun _ => .error "model unavailable")
        (fun _ => .error "db down") (fun _ _ => .error "resp down")
        "show laptops" := by
  have h := orchestrator_short_circuit (fun _ => .error "model unavailable")
    "show laptops" "model unavailable" rfl
    (fun _ => .ok { success := some true }) (fun _ => .error "db down")
    (fun _ _ => .ok ⟨[], "ok", true⟩) (fun _ _ => .error "resp down")
  exact ⟨h.1, h.2.1, h.2.2.1⟩

end DynDash
